import Mathlib

/-
  Verification development for the bat3D repository.

  Shallow embedding of the geometry generation / floor stacking engine and
  the metric-to-material color mapping of src/components/SpatialViewBabylon.tsx.
  Numeric values are modelled as rationals; the nondeterministic value source
  (Math.random) is modelled by passing the drawn samples as explicit arguments.
-/

namespace Bat3D

/-- Global scale constant: world units per plan pixel (source: SCALE = 1 / 30). -/
def SCALE : ℚ := 1 / 30

/-- Slab thickness constant (source: FLOOR_THICKNESS = 0.1). -/
def FLOOR_THICKNESS : ℚ := 1 / 10

/-- Wall height fallback constant (source: WALL_HEIGHT = 3). -/
def WALL_HEIGHT : ℚ := 3

/-- A 2D point in plan-pixel space. -/
structure Point2D where
  x : ℚ
  y : ℚ
deriving DecidableEq

/-- A 3D vertex position. -/
structure Vec3 where
  x : ℚ
  y : ℚ
  z : ℚ
deriving DecidableEq

/-- RGB color with rational components (source: Color3). -/
structure Color3 where
  r : ℚ
  g : ℚ
  b : ℚ
deriving DecidableEq

/-- Linear interpolation from a start color toward an end color
(source: Color3.Lerp(start, end, amount) = start + (end - start) * amount,
componentwise). -/
def Color3.lerp (s e : Color3) (t : ℚ) : Color3 :=
  { r := s.r + (e.r - s.r) * t
  , g := s.g + (e.g - s.g) * t
  , b := s.b + (e.b - s.b) * t }

/-- One sample of a metric timeseries (source: TimeSeriesPoint). -/
structure TimeSeriesPoint where
  value : ℚ
  confidence : ℚ
deriving DecidableEq

/-- Per-metric color thresholds (source: interface MetricThresholds). -/
structure MetricThresholds where
  green : ℚ
  yellow : ℚ
  orange : ℚ
  red : ℚ
deriving DecidableEq

/-- The threshold table (source: METRIC_THRESHOLDS), modelled as a lookup
from metric name to an optional entry. -/
def METRIC_THRESHOLDS (metric : String) : Option MetricThresholds :=
  if metric = "CO2" then some { green := 800, yellow := 1000, orange := 1200, red := 1200 }
  else if metric = "TVOC" then some { green := 200, yellow := 300, orange := 400, red := 400 }
  else if metric = "PM25" then some { green := 10, yellow := 20, orange := 30, red := 30 }
  else none

/-- Resolved thresholds for a metric: the table entry, or the CO2 entry as
fallback (source: METRIC_THRESHOLDS[metric] || METRIC_THRESHOLDS.CO2). -/
def thresholdsFor (metric : String) : MetricThresholds :=
  (METRIC_THRESHOLDS metric).getD { green := 800, yellow := 1000, orange := 1200, red := 1200 }

/-- State color by threshold cascade (source: getStateColor). -/
def getStateColor (metric : String) (value : ℚ) : Color3 :=
  let thresholds := thresholdsFor metric
  if value < thresholds.green then { r := 2/10, g := 8/10, b := 3/10 }
  else if value < thresholds.yellow then { r := 9/10, g := 9/10, b := 2/10 }
  else if value < thresholds.orange then { r := 1, g := 6/10, b := 2/10 }
  else { r := 9/10, g := 2/10, b := 2/10 }

/-- The four severity bands, in ascending severity order. -/
inductive Band
  | green
  | yellow
  | orange
  | red
deriving DecidableEq

/-- Numeric severity of a band (green lowest, red highest). -/
def Band.severity : Band → ℕ
  | .green => 0
  | .yellow => 1
  | .orange => 2
  | .red => 3

/-- The fixed palette color of each band, as used by getStateColor. -/
def bandColor : Band → Color3
  | .green => { r := 2/10, g := 8/10, b := 3/10 }
  | .yellow => { r := 9/10, g := 9/10, b := 2/10 }
  | .orange => { r := 1, g := 6/10, b := 2/10 }
  | .red => { r := 9/10, g := 2/10, b := 2/10 }

/-- The band chosen by the threshold cascade of getStateColor. -/
def classifyBand (metric : String) (value : ℚ) : Band :=
  let thresholds := thresholdsFor metric
  if value < thresholds.green then .green
  else if value < thresholds.yellow then .yellow
  else if value < thresholds.orange then .orange
  else .red

/-- Material state relevant to the color engine (source: StandardMaterial
fields mutated by the code: diffuseColor, alpha, emissiveColor). -/
structure StandardMaterial where
  diffuseColor : Color3
  alpha : ℚ
  emissiveColor : Color3
  backFaceCulling : Bool
deriving DecidableEq

/-- Confidence tier modifier (source: applyConfidenceModifier); the source
mutates the material, modelled here as returning the updated material. -/
def applyConfidenceModifier (baseColor : Color3) (confidence : ℚ)
    (material : StandardMaterial) : StandardMaterial :=
  if 8/10 ≤ confidence then
    { material with diffuseColor := baseColor, alpha := 9/10 }
  else if 6/10 ≤ confidence then
    let gray := (baseColor.r + baseColor.g + baseColor.b) / 3
    { material with
        diffuseColor := Color3.lerp { r := gray, g := gray, b := gray } baseColor (7/10)
      , alpha := 75/100 }
  else
    let gray := (baseColor.r + baseColor.g + baseColor.b) / 3
    { material with
        diffuseColor := { r := gray * (8/10), g := gray * (8/10), b := gray * (8/10) }
      , alpha := 55/100
      , emissiveColor := { r := 3/10, g := 3/10, b := 3/10 } }

/-- A zone: polygon plus optional height override and metric timeseries
(source: interface Zone; timeseries is a map from metric name). -/
structure Zone where
  id : String
  heightOverride : Option ℚ
  polygon2D : List Point2D
  timeseries : String → Option (List TimeSeriesPoint)

/-- A floor: nominal elevation, default zone height, optional plan scale,
owned zones (source: interface Floor with plan2D.scale). -/
structure Floor where
  id : String
  elevation : ℚ
  defaultHeight : ℚ
  planScale : Option ℚ
  zones : List Zone

/-- Lookup of a metric sample for a zone at a time index (source:
getZoneMetricValueAtTime). The two Math.random() draws of each random
branch are passed explicitly as rand1 (value draw) and rand2 (confidence
draw), both in [0, 1). -/
def getZoneMetricValueAtTime (zone : Zone) (metric : String) (timeIndex : ℤ)
    (useRandomValues : Bool) (rand1 rand2 : ℚ) : Option TimeSeriesPoint :=
  if useRandomValues then
    let thresholds := thresholdsFor metric
    let maxValue := thresholds.red * (3/2)
    some { value := rand1 * maxValue, confidence := 1/2 + rand2 * (1/2) }
  else
    match zone.timeseries metric with
    | none =>
        let thresholds := thresholdsFor metric
        let maxValue := thresholds.red * (3/2)
        some { value := rand1 * maxValue, confidence := 1/2 + rand2 * (1/2) }
    | some series =>
        if timeIndex < 0 ∨ (series.length : ℤ) ≤ timeIndex then
          let thresholds := thresholdsFor metric
          let maxValue := thresholds.red * (3/2)
          some { value := rand1 * maxValue, confidence := 1/2 + rand2 * (1/2) }
        else
          series.get? timeIndex.toNat

/-- Per-zone body of updateZoneMaterials: band color plus confidence
modifier when a sample is found, neutral default otherwise (source:
updateZoneMaterials, and the identical material initialization in the
zone creation loop). -/
def updateZoneMaterial (zone : Zone) (metric : String) (t : ℤ)
    (useRandomValues : Bool) (rand1 rand2 : ℚ)
    (material : StandardMaterial) : StandardMaterial :=
  match getZoneMetricValueAtTime zone metric t useRandomValues rand1 rand2 with
  | some metricData =>
      applyConfidenceModifier (getStateColor metric metricData.value)
        metricData.confidence material
  | none =>
      { material with diffuseColor := { r := 85/100, g := 85/100, b := 8/10 }, alpha := 1/2 }

/-- One stacking step (source: the i > 0 branch of the floor stacking loop):
cumulative = previous effective elevation + FLOOR_THICKNESS + previous
default height, clamped from below by the nominal elevation via max. -/
def stackStep (prevElev : ℚ) (prevFloor floor : Floor) : ℚ :=
  max floor.elevation (prevElev + FLOOR_THICKNESS + prevFloor.defaultHeight)

/-- Effective elevations of the floors after a given floor whose effective
elevation is prevElev (source: the forEach stacking loop with its mutable
cumulativeElevation). -/
def effElevFrom (prevElev : ℚ) (prevFloor : Floor) : List Floor → List ℚ
  | [] => []
  | f :: rest =>
      let e := stackStep prevElev prevFloor f
      e :: effElevFrom e f rest

/-- Effective elevation of every floor in stack order (source: the floor
stacking loop; index 0 keeps its nominal elevation). -/
def effectiveElevations : List Floor → List ℚ
  | [] => []
  | f :: rest => f.elevation :: effElevFrom f.elevation f rest

/-- Default floor record used for list indexing with getD. -/
def defaultFloorRec : Floor :=
  { id := "", elevation := 0, defaultHeight := 0, planScale := none, zones := [] }

/-- Semantics of the JavaScript expression a || b on numbers
(0 is falsy, any other number is kept). -/
def jsOrNum (a b : ℚ) : ℚ := if a = 0 then b else a

/-- Semantics of the JavaScript expression a || b where a is an optional
number (undefined and 0 are falsy). -/
def jsOrOpt (a : Option ℚ) (b : ℚ) : ℚ :=
  match a with
  | none => b
  | some v => if v = 0 then b else v

/-- Extrusion height chosen for a zone (source: the zone loop, const
zoneHeight = zone.heightOverride || floor.defaultHeight). -/
def zoneHeight (zone : Zone) (floor : Floor) : ℚ :=
  jsOrOpt zone.heightOverride floor.defaultHeight

/-- Vertex positions of the extruded zone mesh, in emission order: for each
polygon point, the bottom vertex then the top vertex, both scaled and
offset, at local heights -height/2 and +height/2 (source: the
zone.polygon2D.forEach push loop of createExtrudedZone). -/
def extrudedPositions (pts : List Point2D) (planScale halfHeight offsetX offsetZ : ℚ) :
    List Vec3 :=
  match pts with
  | [] => []
  | p :: rest =>
      { x := p.x * planScale * SCALE + offsetX, y := -halfHeight
      , z := p.y * planScale * SCALE + offsetZ } ::
      { x := p.x * planScale * SCALE + offsetX, y := halfHeight
      , z := p.y * planScale * SCALE + offsetZ } ::
      extrudedPositions rest planScale halfHeight offsetX offsetZ

/-- Bottom cap triangles, fan from vertex 0 (source: createExtrudedZone,
for i = 1 .. numPoints-2: indices.push(0, i*2, (i+1)*2); here i = j+1). -/
def bottomCapIndices (n : ℕ) : List (ℕ × ℕ × ℕ) :=
  (List.range (n - 2)).map (fun j => (0, (j + 1) * 2, (j + 2) * 2))

/-- Top cap triangles, reversed fan from vertex 1 (source: createExtrudedZone,
for i = 1 .. numPoints-2: indices.push(1, (i+1)*2+1, i*2+1); here i = j+1). -/
def topCapIndices (n : ℕ) : List (ℕ × ℕ × ℕ) :=
  (List.range (n - 2)).map (fun j => (1, (j + 2) * 2 + 1, (j + 1) * 2 + 1))

/-- Side wall triangles, two per polygon edge (source: createExtrudedZone,
for i = 0 .. numPoints-1 with next = (i+1) % numPoints:
indices.push(botI, botNext, topI) and indices.push(botNext, topNext, topI)). -/
def sideIndices (n : ℕ) : List (ℕ × ℕ × ℕ) :=
  (List.range n).flatMap (fun i =>
    let next := (i + 1) % n
    [(i * 2, next * 2, i * 2 + 1), (next * 2, next * 2 + 1, i * 2 + 1)])

/-- The full triangle list of the extruded zone mesh, caps then sides. -/
def extrudedIndices (n : ℕ) : List (ℕ × ℕ × ℕ) :=
  bottomCapIndices n ++ topCapIndices n ++ sideIndices n

/-- Mesh buffer: local positions, triangle list and the mesh position
(source: VertexData plus mesh.position assignment). -/
structure MeshData where
  positions : List Vec3
  indices : List (ℕ × ℕ × ℕ)
  posX : ℚ
  posY : ℚ
  posZ : ℚ
deriving DecidableEq

/-- Extruded zone builder (source: createExtrudedZone): vertices relative to
the mesh center, mesh positioned at y = floor.elevation + height / 2;
plan scale defaults to 30 via floor.plan2D.scale || 30. -/
def createExtrudedZone (zone : Zone) (floor : Floor) (height offsetX offsetZ : ℚ) :
    MeshData :=
  let planScale := jsOrOpt floor.planScale 30
  let halfHeight := height / 2
  { positions := extrudedPositions zone.polygon2D planScale halfHeight offsetX offsetZ
  , indices := extrudedIndices zone.polygon2D.length
  , posX := 0
  , posY := floor.elevation + height / 2
  , posZ := 0 }

/-- World-space y coordinate of a local vertex of a mesh. -/
def worldY (m : MeshData) (v : Vec3) : ℚ := m.posY + v.y

/-- Vertex positions of the slab mesh, in emission order: for each polygon
point, the top vertex at elevation + FLOOR_THICKNESS then the bottom vertex
at elevation (source: the forEach push loop of createFloorFromZone). -/
def slabPositions (pts : List Point2D) (planScale elevation offsetX offsetZ : ℚ) :
    List Vec3 :=
  match pts with
  | [] => []
  | p :: rest =>
      { x := p.x * planScale * SCALE + offsetX, y := elevation + FLOOR_THICKNESS
      , z := p.y * planScale * SCALE + offsetZ } ::
      { x := p.x * planScale * SCALE + offsetX, y := elevation
      , z := p.y * planScale * SCALE + offsetZ } ::
      slabPositions rest planScale elevation offsetX offsetZ

/-- Side triangles of the slab mesh (source: createFloorFromZone side loop,
with topI = i*2, botI = i*2+1: indices.push(topI, botI, botNext) and
indices.push(topI, botNext, topNext)). -/
def slabSideIndices (n : ℕ) : List (ℕ × ℕ × ℕ) :=
  (List.range n).flatMap (fun i =>
    let next := (i + 1) % n
    [(i * 2, i * 2 + 1, next * 2 + 1), (i * 2, next * 2 + 1, next * 2)])

/-- Slab mesh builder (source: createFloorFromZone): absolute vertex heights
elevation and elevation + FLOOR_THICKNESS, mesh left at the origin; the cap
index loops are textually identical to those of createExtrudedZone. -/
def createFloorFromZone (zone : Zone) (floor : Floor) (offsetX offsetZ : ℚ) :
    MeshData :=
  let planScale := jsOrOpt floor.planScale 30
  { positions := slabPositions zone.polygon2D planScale floor.elevation offsetX offsetZ
  , indices := bottomCapIndices zone.polygon2D.length ++
      topCapIndices zone.polygon2D.length ++ slabSideIndices zone.polygon2D.length
  , posX := 0
  , posY := 0
  , posZ := 0 }

/-- A wall segment from the 2D editor (source: interface Wall). -/
structure Wall where
  start : Point2D
  stop : Point2D
deriving DecidableEq

/-- Axis-aligned plan-space bounding box. -/
structure BoundsBox where
  minX : ℚ
  maxX : ℚ
  minY : ℚ
  maxY : ℚ
deriving DecidableEq

/-- Bounding box of a wall set (source: calculateBounds). The empty set
returns the fixed fallback box; otherwise the Infinity-seeded min/max fold
of the source is equivalent to folding from the first wall. -/
def calculateBounds (walls : List Wall) : BoundsBox :=
  match walls with
  | [] => { minX := 0, maxX := 0, minY := 0, maxY := 0 }
  | w :: rest =>
      rest.foldl
        (fun b wall =>
          { minX := min b.minX (min wall.start.x wall.stop.x)
          , maxX := max b.maxX (max wall.start.x wall.stop.x)
          , minY := min b.minY (min wall.start.y wall.stop.y)
          , maxY := max b.maxY (max wall.start.y wall.stop.y) })
        { minX := min w.start.x w.stop.x
        , maxX := max w.start.x w.stop.x
        , minY := min w.start.y w.stop.y
        , maxY := max w.start.y w.stop.y }

/-- Maximal horizontal extent for camera framing (source:
const maxDim = Math.max(width, height) * SCALE || 20). -/
def maxDim (bounds : BoundsBox) : ℚ :=
  jsOrNum (max (bounds.maxX - bounds.minX) (bounds.maxY - bounds.minY) * SCALE) 20

/-- Render state of one mesh touched by the visibility pass (material alpha
and culling, enabled flag, and the geometry it carries). -/
structure MeshState where
  name : String
  alpha : ℚ
  backFaceCulling : Bool
  enabled : Bool
  positions : List Vec3
deriving DecidableEq

/-- Per-floor transform node with its zone meshes, in floor stacking order
(source: floorRootsRef / zoneMeshesRef entries built by the scene setup). -/
structure FloorNode where
  floorId : String
  rootEnabled : Bool
  meshes : List MeshState
deriving DecidableEq

/-- Default node used for list indexing with getD. -/
def defaultFloorNode : FloorNode := { floorId := "", rootEnabled := true, meshes := [] }

/-- Mesh update for a floor strictly below the selected index (source: the
index < selectedIndex branch: setEnabled(true), alpha = 1.0,
backFaceCulling = false). -/
def updateMeshLower (m : MeshState) : MeshState :=
  { m with enabled := true, alpha := 1, backFaceCulling := false }

/-- Mesh update for the selected floor (source: the index === selectedIndex
branch: setEnabled(true); extruded meshes get alpha = 0.25 and no culling,
slab meshes keep alpha = 1.0 with culling). -/
def updateMeshSelected (m : MeshState) : MeshState :=
  if m.name.startsWith "zone_extruded_" then
    { m with enabled := true, alpha := 1/4, backFaceCulling := false }
  else if m.name.startsWith "zone_floor_" then
    { m with enabled := true, alpha := 1, backFaceCulling := true }
  else
    { m with enabled := true }

/-- Per-floor body of the visibility effect, by position i relative to the
selected index s (source: the floors.forEach of the visibility effect). -/
def updateFloorNode (s i : ℕ) (node : FloorNode) : FloorNode :=
  if i < s then
    { node with rootEnabled := true, meshes := node.meshes.map updateMeshLower }
  else if i = s then
    { node with rootEnabled := true, meshes := node.meshes.map updateMeshSelected }
  else
    { node with rootEnabled := false }

/-- Apply the visibility rule to the nodes starting at index i. -/
def applyVisAux (s : ℕ) : ℕ → List FloorNode → List FloorNode
  | _, [] => []
  | i, node :: rest => updateFloorNode s i node :: applyVisAux s (i + 1) rest

/-- Index of the floor node matching the selected identifier (source:
floors.findIndex(f => f.id === selectedViewFloorId)). -/
def findFloorIdx (selectedId : String) (nodes : List FloorNode) : Option ℕ :=
  nodes.findIdx? (fun nd => nd.floorId == selectedId)

/-- The visibility pass (source: the selected-view-floor effect): early
return when the selected identifier is empty or matches no floor,
otherwise the per-index update of every floor node. -/
def applyFloorVisibility (selectedId : String) (nodes : List FloorNode) :
    List FloorNode :=
  if selectedId = "" then nodes
  else
    match findFloorIdx selectedId nodes with
    | none => nodes
    | some s => applyVisAux s 0 nodes

/-- Undirected edge of a triangle, normalized so the smaller index is first. -/
def normEdge (a b : ℕ) : ℕ × ℕ := (min a b, max a b)

/-- The three undirected edges of a triangle. -/
def triEdges (t : ℕ × ℕ × ℕ) : List (ℕ × ℕ) :=
  [normEdge t.1 t.2.1, normEdge t.2.1 t.2.2, normEdge t.1 t.2.2]

/-- Number of triangles of the list that contain a given undirected edge,
counted with multiplicity. -/
def edgeCount (tris : List (ℕ × ℕ × ℕ)) (e : ℕ × ℕ) : ℕ :=
  (tris.flatMap triEdges).count e

/-- A triangle list is a closed surface when every edge of every triangle
occurs in exactly two triangle slots. -/
def IsClosedMesh (tris : List (ℕ × ℕ × ℕ)) : Prop :=
  ∀ t ∈ tris, ∀ e ∈ triEdges t, edgeCount tris e = 2

instance (tris : List (ℕ × ℕ × ℕ)) : Decidable (IsClosedMesh tris) := by
  unfold IsClosedMesh; infer_instance

/-- The scale-and-offset plan-to-world transform of the geometry builder. -/
def planToWorld (a planScale offset : ℚ) : ℚ := a * planScale * SCALE + offset

/-- The axis-aligned rectangle polygon zone used by the testable properties. -/
def rectZone (w h : ℚ) : Zone :=
  { id := "rect", heightOverride := none
  , polygon2D := [{ x := 0, y := 0 }, { x := w, y := 0 }, { x := w, y := h }, { x := 0, y := h }]
  , timeseries := fun _ => none }

/-- A floor record with the given elevation, default height and plan scale. -/
def rectFloor (E H s : ℚ) : Floor :=
  { id := "f", elevation := E, defaultHeight := H, planScale := some s, zones := [] }

/-- Concrete two-floor stack used as witness input: floor 0 at elevation 0
with default height 14/5, floor 1 nominally at elevation 0. -/
def wFloor0 : Floor :=
  { id := "f0", elevation := 0, defaultHeight := 14/5, planScale := none, zones := [] }

/-- Second floor of the concrete witness stack. -/
def wFloor1 : Floor :=
  { id := "f1", elevation := 0, defaultHeight := 5/2, planScale := none, zones := [] }

/-- A zone with no recorded timeseries for any metric. -/
def emptyZone : Zone :=
  { id := "z", heightOverride := none
  , polygon2D := [{ x := 0, y := 0 }, { x := 1, y := 0 }, { x := 1, y := 1 }]
  , timeseries := fun _ => none }

/-- A neutral input material. -/
def neutralMat : StandardMaterial :=
  { diffuseColor := { r := 1, g := 1, b := 1 }, alpha := 1
  , emissiveColor := { r := 0, g := 0, b := 0 }, backFaceCulling := false }

/-- A zone whose height override is present and equal to 0. -/
def czone : Zone :=
  { id := "cz", heightOverride := some 0
  , polygon2D := [{ x := 0, y := 0 }, { x := 1, y := 0 }, { x := 1, y := 1 }]
  , timeseries := fun _ => none }

/-- The floor owning czone, with default height 3. -/
def cfloor : Floor :=
  { id := "cf", elevation := 0, defaultHeight := 3, planScale := none, zones := [czone] }

/-- A single short wall segment: nonempty input with a tiny extent. -/
def tinyWall : Wall := { start := { x := 0, y := 0 }, stop := { x := 1, y := 0 } }

/-- Extruded-zone mesh state of floor 0 for the visibility witness. -/
def wMeshE0 : MeshState :=
  { name := "zone_extruded_f0_z0", alpha := 9/10, backFaceCulling := false
  , enabled := true, positions := [{ x := 1, y := 2, z := 3 }] }

/-- Slab mesh state of floor 0 for the visibility witness. -/
def wMeshF0 : MeshState :=
  { name := "zone_floor_f0_z0", alpha := 1, backFaceCulling := true
  , enabled := true, positions := [{ x := 4, y := 5, z := 6 }] }

/-- Extruded-zone mesh state of floor 1 for the visibility witness. -/
def wMeshE1 : MeshState :=
  { name := "zone_extruded_f1_z0", alpha := 9/10, backFaceCulling := false
  , enabled := true, positions := [{ x := 7, y := 8, z := 9 }] }

/-- Slab mesh state of floor 1 for the visibility witness. -/
def wMeshF1 : MeshState :=
  { name := "zone_floor_f1_z0", alpha := 1, backFaceCulling := true
  , enabled := true, positions := [{ x := 10, y := 11, z := 12 }] }

/-- Concrete two-floor node list for the visibility witness. -/
def wNodes : List FloorNode :=
  [ { floorId := "f0", rootEnabled := true, meshes := [wMeshE0, wMeshF0] }
  , { floorId := "f1", rootEnabled := true, meshes := [wMeshE1, wMeshF1] } ]

/-- Helper: every entry of the threshold table, and the fallback entry, has
green < yellow and yellow < orange. -/
theorem thresholdsFor_ascending (metric : String) :
    (thresholdsFor metric).green < (thresholdsFor metric).yellow ∧
    (thresholdsFor metric).yellow < (thresholdsFor metric).orange := by
  unfold thresholdsFor METRIC_THRESHOLDS
  split_ifs <;> norm_num

/-- C8 counterexample: the CO2 entry of the threshold table has
orange = red = 1200, so its four breakpoints are not strictly ascending. -/
theorem c8_counterexample :
    ∃ t, METRIC_THRESHOLDS "CO2" = some t ∧ ¬ (t.orange < t.red) := by
  refine ⟨{ green := 800, yellow := 1000, orange := 1200, red := 1200 }, ?_, ?_⟩
  · norm_num [METRIC_THRESHOLDS]
  · norm_num

/-- C8 (amended): for every metric present in the threshold table,
green < yellow < orange holds strictly, and the red breakpoint equals the
orange one instead of exceeding it. -/
theorem c8_amended (metric : String) (t : MetricThresholds)
    (h : METRIC_THRESHOLDS metric = some t) :
    t.green < t.yellow ∧ t.yellow < t.orange ∧ t.orange = t.red := by
  unfold METRIC_THRESHOLDS at h
  split_ifs at h <;> simp_all <;> norm_num [← h]

/-- C8 witness: the amended statement instantiated at the CO2 table entry. -/
theorem c8_witness :
    (800:ℚ) < 1000 ∧ (1000:ℚ) < 1200 ∧ (1200:ℚ) = 1200 :=
  c8_amended "CO2" { green := 800, yellow := 1000, orange := 1200, red := 1200 }
    (by norm_num [METRIC_THRESHOLDS])

/-- C4: getStateColor returns the palette color of the band chosen by the
strict-less-than cascade over the green, yellow and orange thresholds with
first match winning; a value equal to a threshold falls into the next band;
and for a fixed metric the assigned band is monotone in the value, so the
band of the larger value is never strictly lower in severity. -/
theorem c4_state_color (metric : String) (v1 v2 : ℚ) (hle : v1 ≤ v2) :
    (∀ v : ℚ, getStateColor metric v = bandColor (classifyBand metric v)) ∧
    (∀ v : ℚ, v < (thresholdsFor metric).green → classifyBand metric v = Band.green) ∧
    (∀ v : ℚ, ¬ v < (thresholdsFor metric).green → v < (thresholdsFor metric).yellow →
      classifyBand metric v = Band.yellow) ∧
    (∀ v : ℚ, ¬ v < (thresholdsFor metric).green → ¬ v < (thresholdsFor metric).yellow →
      v < (thresholdsFor metric).orange → classifyBand metric v = Band.orange) ∧
    (∀ v : ℚ, ¬ v < (thresholdsFor metric).green → ¬ v < (thresholdsFor metric).yellow →
      ¬ v < (thresholdsFor metric).orange → classifyBand metric v = Band.red) ∧
    classifyBand metric (thresholdsFor metric).green = Band.yellow ∧
    classifyBand metric (thresholdsFor metric).yellow = Band.orange ∧
    classifyBand metric (thresholdsFor metric).orange = Band.red ∧
    (classifyBand metric v1).severity ≤ (classifyBand metric v2).severity := by
  obtain ⟨hgy, hyo⟩ := thresholdsFor_ascending metric
  refine ⟨?_, ?_, ?_, ?_, ?_, ?_, ?_, ?_, ?_⟩
  · intro v
    simp only [getStateColor, classifyBand]
    split_ifs <;> rfl
  · intro v h; simp [classifyBand, h]
  · intro v h hy; simp [classifyBand, h, hy]
  · intro v h hy ho; simp [classifyBand, h, hy, ho]
  · intro v h hy ho; simp [classifyBand, h, hy, ho]
  · have h1 : ¬ (thresholdsFor metric).green < (thresholdsFor metric).green := lt_irrefl _
    simp [classifyBand, h1, hgy]
  · have h1 : ¬ (thresholdsFor metric).yellow < (thresholdsFor metric).green :=
      not_lt.2 (le_of_lt hgy)
    have h2 : ¬ (thresholdsFor metric).yellow < (thresholdsFor metric).yellow := lt_irrefl _
    simp [classifyBand, h1, h2, hyo]
  · have h1 : ¬ (thresholdsFor metric).orange < (thresholdsFor metric).green :=
      not_lt.2 (le_of_lt (lt_trans hgy hyo))
    have h2 : ¬ (thresholdsFor metric).orange < (thresholdsFor metric).yellow :=
      not_lt.2 (le_of_lt hyo)
    have h3 : ¬ (thresholdsFor metric).orange < (thresholdsFor metric).orange := lt_irrefl _
    simp [classifyBand, h1, h2, h3]
  · simp only [classifyBand]
    split_ifs <;> simp_all [Band.severity] <;> linarith

/-- C4 witness: band monotonicity instantiated for CO2 at values 0 and 1. -/
theorem c4_witness :
    (classifyBand "CO2" 0).severity ≤ (classifyBand "CO2" 1).severity :=
  (c4_state_color "CO2" 0 1 (by norm_num)).2.2.2.2.2.2.2.2

/-- C5: the three confidence tiers of applyConfidenceModifier, with
greater-or-equal boundary semantics. Confidence at least 0.8 keeps the base
color with alpha 0.9; confidence in [0.6, 0.8) blends 30 percent toward the
componentwise mid-gray with alpha 0.75; confidence below 0.6 yields the
80-percent-of-gray monochrome with alpha 0.55 and sets the uncertain
emissive marker; the boundary values 0.8 and 0.6 resolve to the
higher-trust tier. -/
theorem c5_confidence_tiers (base : Color3) (c : ℚ) (m : StandardMaterial)
    (h0 : 0 ≤ c) (h1 : c ≤ 1) :
    (8/10 ≤ c → applyConfidenceModifier base c m =
      { m with diffuseColor := base, alpha := 9/10 }) ∧
    (6/10 ≤ c → c < 8/10 →
      applyConfidenceModifier base c m =
        { m with
            diffuseColor :=
              { r := 3/10 * ((base.r + base.g + base.b) / 3) + 7/10 * base.r
              , g := 3/10 * ((base.r + base.g + base.b) / 3) + 7/10 * base.g
              , b := 3/10 * ((base.r + base.g + base.b) / 3) + 7/10 * base.b }
          , alpha := 75/100 }) ∧
    (c < 6/10 →
      applyConfidenceModifier base c m =
        { m with
            diffuseColor :=
              { r := ((base.r + base.g + base.b) / 3) * (8/10)
              , g := ((base.r + base.g + base.b) / 3) * (8/10)
              , b := ((base.r + base.g + base.b) / 3) * (8/10) }
          , alpha := 55/100
          , emissiveColor := { r := 3/10, g := 3/10, b := 3/10 } }) ∧
    (applyConfidenceModifier base (8/10) m).alpha = 9/10 ∧
    (applyConfidenceModifier base (6/10) m).alpha = 75/100 := by
  refine ⟨?_, ?_, ?_, ?_, ?_⟩
  · intro h; simp [applyConfidenceModifier, h]
  · intro h6 h8
    have hn : ¬ 8/10 ≤ c := not_le.2 h8
    have hc :
        Color3.lerp
          { r := (base.r + base.g + base.b) / 3, g := (base.r + base.g + base.b) / 3
          , b := (base.r + base.g + base.b) / 3 } base (7/10) =
        { r := 3/10 * ((base.r + base.g + base.b) / 3) + 7/10 * base.r
        , g := 3/10 * ((base.r + base.g + base.b) / 3) + 7/10 * base.g
        , b := 3/10 * ((base.r + base.g + base.b) / 3) + 7/10 * base.b } := by
      simp only [Color3.lerp, Color3.mk.injEq]
      refine ⟨by ring, by ring, by ring⟩
    simp only [applyConfidenceModifier, if_neg hn, if_pos h6]
    rw [hc]
  · intro h6
    have hn8 : ¬ 8/10 ≤ c := not_le.2 (lt_trans h6 (by norm_num))
    have hn6 : ¬ 6/10 ≤ c := not_le.2 h6
    simp only [applyConfidenceModifier, if_neg hn8, if_neg hn6]
  · simp [applyConfidenceModifier]
  · norm_num [applyConfidenceModifier]

/-- C5 witness: the high-trust tier at the boundary confidence 0.8. -/
theorem c5_witness :
    applyConfidenceModifier { r := 1, g := 0, b := 0 } (8/10) neutralMat =
      { neutralMat with diffuseColor := { r := 1, g := 0, b := 0 }, alpha := 9/10 } :=
  (c5_confidence_tiers { r := 1, g := 0, b := 0 } (8/10) neutralMat
    (by norm_num) (by norm_num)).1 (by norm_num)

/-- C2 counterexample: for a zone with no recorded series for CO2, time
index 0 and live mode off, with random draws 0 and 0, the applied material
has alpha 0.55 and a desaturated band color rather than the neutral
default flat gray with alpha 0.5 claimed by the spec. -/
theorem c2_counterexample :
    emptyZone.timeseries "CO2" = none ∧
    (updateZoneMaterial emptyZone "CO2" 0 false 0 0 neutralMat).alpha = 55/100 ∧
    (updateZoneMaterial emptyZone "CO2" 0 false 0 0 neutralMat).alpha ≠ 1/2 ∧
    (updateZoneMaterial emptyZone "CO2" 0 false 0 0 neutralMat).diffuseColor ≠
      { r := 85/100, g := 85/100, b := 8/10 } := by
  refine ⟨rfl, ?_, ?_, ?_⟩ <;>
    norm_num [updateZoneMaterial, getZoneMetricValueAtTime, applyConfidenceModifier,
      getStateColor, thresholdsFor, METRIC_THRESHOLDS, emptyZone, neutralMat]

/-- C2 (amended): when the lookup finds no recorded data, a missing series
or an out-of-range time index, with live mode off, the lookup falls through
to the random value source, value = rand1 times 1.5 times the red
threshold and confidence = 0.5 + 0.5 times rand2, and the applied material
is the band- and confidence-derived one; the neutral gray alpha-0.5
default is never reached on these inputs. -/
theorem c2_amended (zone : Zone) (metric : String) (timeIndex : ℤ)
    (r1 r2 : ℚ) (m : StandardMaterial) :
    (zone.timeseries metric = none →
      getZoneMetricValueAtTime zone metric timeIndex false r1 r2 =
        some { value := r1 * ((thresholdsFor metric).red * (3/2))
             , confidence := 1/2 + r2 * (1/2) } ∧
      updateZoneMaterial zone metric timeIndex false r1 r2 m =
        applyConfidenceModifier
          (getStateColor metric (r1 * ((thresholdsFor metric).red * (3/2))))
          (1/2 + r2 * (1/2)) m) ∧
    (∀ series, zone.timeseries metric = some series →
      (timeIndex < 0 ∨ (series.length : ℤ) ≤ timeIndex) →
      getZoneMetricValueAtTime zone metric timeIndex false r1 r2 =
        some { value := r1 * ((thresholdsFor metric).red * (3/2))
             , confidence := 1/2 + r2 * (1/2) } ∧
      updateZoneMaterial zone metric timeIndex false r1 r2 m =
        applyConfidenceModifier
          (getStateColor metric (r1 * ((thresholdsFor metric).red * (3/2))))
          (1/2 + r2 * (1/2)) m) := by
  constructor
  · intro h
    constructor
    · simp [getZoneMetricValueAtTime, h]
    · simp [updateZoneMaterial, getZoneMetricValueAtTime, h]
  · intro series h hrange
    constructor
    · simp [getZoneMetricValueAtTime, h, if_pos hrange]
    · simp [updateZoneMaterial, getZoneMetricValueAtTime, h, if_pos hrange]

/-- C2 witness: the missing-series branch at a concrete zone with zero
random draws. -/
theorem c2_witness :
    getZoneMetricValueAtTime emptyZone "CO2" 0 false 0 0 =
      some { value := 0 * ((thresholdsFor "CO2").red * (3/2))
           , confidence := 1/2 + 0 * (1/2) } ∧
    updateZoneMaterial emptyZone "CO2" 0 false 0 0 neutralMat =
      applyConfidenceModifier
        (getStateColor "CO2" (0 * ((thresholdsFor "CO2").red * (3/2))))
        (1/2 + 0 * (1/2)) neutralMat :=
  (c2_amended emptyZone "CO2" 0 0 0 neutralMat).1 rfl

/-- Helper: effElevFrom preserves the length of its input list. -/
theorem effElevFrom_length (fs : List Floor) :
    ∀ (p : ℚ) (pf : Floor), (effElevFrom p pf fs).length = fs.length := by
  induction fs with
  | nil => intro p pf; rfl
  | cons f rest ih => intro p pf; simp [effElevFrom, ih]

/-- Helper: the stacking recurrence of effElevFrom read off at successive
indices of the produced elevation list. -/
theorem cons_effElevFrom_getD (fs : List Floor) :
    ∀ (p : ℚ) (pf : Floor) (i : ℕ), i + 1 < fs.length + 1 →
      (p :: effElevFrom p pf fs).getD (i + 1) 0 =
        max ((pf :: fs).getD (i + 1) defaultFloorRec).elevation
          ((p :: effElevFrom p pf fs).getD i 0 + FLOOR_THICKNESS +
            ((pf :: fs).getD i defaultFloorRec).defaultHeight) := by
  induction fs with
  | nil => intro p pf i h; simp at h
  | cons f rest ih =>
      intro p pf i h
      cases i with
      | zero =>
          simp [effElevFrom, stackStep]
      | succ j =>
          have hj : j + 1 < rest.length + 1 := by
            simpa using Nat.lt_of_succ_lt_succ h
          have := ih (stackStep p pf f) f j hj
          simpa [effElevFrom, List.getD_cons_succ] using this

/-- C1: the floor stack resolver assigns EffectiveElevation 0 equal to the
first floor nominal elevation, and for every later index i + 1 the value
max(elevation of floor i+1, EffectiveElevation i + FLOOR_THICKNESS +
default height of floor i); consequently each effective elevation is at
least the previous one plus slab thickness plus the previous default
height, and at least its own nominal elevation. FLOOR_THICKNESS is 0.1. -/
theorem c1_floor_stack (floors : List Floor) (i : ℕ) (hi : i + 1 < floors.length) :
    (effectiveElevations floors).length = floors.length ∧
    (effectiveElevations floors).getD 0 0 = (floors.getD 0 defaultFloorRec).elevation ∧
    (effectiveElevations floors).getD (i + 1) 0 =
      max ((floors.getD (i + 1) defaultFloorRec).elevation)
        ((effectiveElevations floors).getD i 0 + FLOOR_THICKNESS +
          (floors.getD i defaultFloorRec).defaultHeight) ∧
    (effectiveElevations floors).getD i 0 + FLOOR_THICKNESS +
      (floors.getD i defaultFloorRec).defaultHeight ≤
      (effectiveElevations floors).getD (i + 1) 0 ∧
    (floors.getD (i + 1) defaultFloorRec).elevation ≤
      (effectiveElevations floors).getD (i + 1) 0 ∧
    FLOOR_THICKNESS = 1/10 := by
  cases floors with
  | nil => simp at hi
  | cons f rest =>
      have hrec := cons_effElevFrom_getD rest f.elevation f i (by simpa using hi)
      refine ⟨?_, ?_, ?_, ?_, ?_, ?_⟩
      · simp [effectiveElevations, effElevFrom_length]
      · rfl
      · simpa [effectiveElevations] using hrec
      · have hx : (effectiveElevations (f :: rest)).getD (i + 1) 0 =
            max ((f :: rest).getD (i + 1) defaultFloorRec).elevation
              ((effectiveElevations (f :: rest)).getD i 0 + FLOOR_THICKNESS +
                ((f :: rest).getD i defaultFloorRec).defaultHeight) := by
          simpa [effectiveElevations] using hrec
        rw [hx]; exact le_max_right _ _
      · have hx : (effectiveElevations (f :: rest)).getD (i + 1) 0 =
            max ((f :: rest).getD (i + 1) defaultFloorRec).elevation
              ((effectiveElevations (f :: rest)).getD i 0 + FLOOR_THICKNESS +
                ((f :: rest).getD i defaultFloorRec).defaultHeight) := by
          simpa [effectiveElevations] using hrec
        rw [hx]; exact le_max_left _ _
      · rfl

/-- C1 witness: the stacking gap inequality at the concrete two-floor
stack, where 0 + 0.1 + 2.8 = 2.9 is the second effective elevation. -/
theorem c1_witness :
    (effectiveElevations [wFloor0, wFloor1]).getD 0 0 + FLOOR_THICKNESS +
      ([wFloor0, wFloor1].getD 0 defaultFloorRec).defaultHeight ≤
      (effectiveElevations [wFloor0, wFloor1]).getD 1 0 :=
  (c1_floor_stack [wFloor0, wFloor1] 0 (by norm_num)).2.2.2.1

/-- Helper: effElevFrom ignores the zones of every floor record, so
replacing zone lists leaves the elevations unchanged. -/
theorem effElevFrom_map_zones (fs : List Floor) :
    ∀ (p : ℚ) (pf pf2 : Floor) (g : Floor → List Zone),
      pf2.defaultHeight = pf.defaultHeight →
      effElevFrom p pf2 (fs.map fun f => { f with zones := g f }) = effElevFrom p pf fs := by
  induction fs with
  | nil => intro p pf pf2 g hd; rfl
  | cons f rest ih =>
      intro p pf pf2 g hd
      have hs : stackStep p pf2 { f with zones := g f } = stackStep p pf f := by
        simp [stackStep, hd]
      simp only [List.map_cons, effElevFrom, hs]
      rw [ih (stackStep p pf f) f { f with zones := g f } g rfl]

/-- C6 counterexample: a zone whose heightOverride is present and equal to
0 does not get extrusion height 0; the JavaScript or-expression treats 0 as
absent and falls back to the floor default height 3. -/
theorem c6_counterexample :
    czone.heightOverride = some 0 ∧
    cfloor.defaultHeight = 3 ∧
    zoneHeight czone cfloor = 3 ∧
    zoneHeight czone cfloor ≠ 0 := by
  refine ⟨rfl, rfl, ?_, ?_⟩ <;> norm_num [zoneHeight, jsOrOpt, czone, cfloor]

/-- C6 (amended): the extrusion height equals heightOverride when it is
present and nonzero, and the floor default height when it is absent or
zero; the slab builder and the floor stacking are independent of
heightOverride. -/
theorem c6_amended (zone : Zone) (floor : Floor) :
    (zone.heightOverride = none → zoneHeight zone floor = floor.defaultHeight) ∧
    (zone.heightOverride = some 0 → zoneHeight zone floor = floor.defaultHeight) ∧
    (∀ hv : ℚ, zone.heightOverride = some hv → hv ≠ 0 → zoneHeight zone floor = hv) ∧
    (∀ (o : Option ℚ) (ox oz : ℚ),
      createFloorFromZone { zone with heightOverride := o } floor ox oz =
        createFloorFromZone zone floor ox oz) ∧
    (∀ (floors : List Floor) (g : Floor → List Zone),
      effectiveElevations (floors.map fun f => { f with zones := g f }) =
        effectiveElevations floors) := by
  refine ⟨?_, ?_, ?_, ?_, ?_⟩
  · intro h; simp [zoneHeight, jsOrOpt, h]
  · intro h; simp [zoneHeight, jsOrOpt, h]
  · intro hv h hne; simp [zoneHeight, jsOrOpt, h, hne]
  · intro o ox oz; rfl
  · intro floors g
    cases floors with
    | nil => rfl
    | cons f rest =>
        simp only [List.map_cons, effectiveElevations]
        rw [effElevFrom_map_zones rest f.elevation f { f with zones := g f } g rfl]

/-- C6 witness: the zero-override fallback at the concrete zone and floor. -/
theorem c6_witness : zoneHeight czone cfloor = cfloor.defaultHeight :=
  (c6_amended czone cfloor).2.1 rfl

/-- C9 counterexample: a single unit-length wall gives a tiny but nonzero
extent, and maxDim is then 1/30, far below 20, so 20 is not a minimum
floor value for tiny inputs. -/
theorem c9_counterexample :
    maxDim (calculateBounds [tinyWall]) = 1/30 ∧
    (1/30 : ℚ) < 20 ∧
    maxDim (calculateBounds [tinyWall]) ≠ 20 := by
  refine ⟨?_, by norm_num, ?_⟩ <;>
    norm_num [maxDim, calculateBounds, jsOrNum, SCALE, tinyWall, max_def]

/-- C9 (amended): the empty wall set yields the fallback box (0,0,0,0) and
maxDim 20; in general maxDim equals max(width, height) times SCALE, with
the value 20 substituted exactly when that product is zero, as a falsy
fallback rather than a minimum. -/
theorem c9_amended :
    (calculateBounds [] = { minX := 0, maxX := 0, minY := 0, maxY := 0 } ∧
      maxDim (calculateBounds []) = 20) ∧
    (∀ b : BoundsBox,
      max (b.maxX - b.minX) (b.maxY - b.minY) * SCALE = 0 → maxDim b = 20) ∧
    (∀ b : BoundsBox,
      max (b.maxX - b.minX) (b.maxY - b.minY) * SCALE ≠ 0 →
        maxDim b = max (b.maxX - b.minX) (b.maxY - b.minY) * SCALE) := by
  refine ⟨⟨rfl, ?_⟩, ?_, ?_⟩
  · norm_num [maxDim, calculateBounds, jsOrNum, SCALE, max_def]
  · intro b h; simp [maxDim, jsOrNum, h]
  · intro b h; simp [maxDim, jsOrNum, h]

/-- C9 witness: the nonzero branch at a concrete unit-wide box. -/
theorem c9_witness :
    maxDim { minX := 0, maxX := 1, minY := 0, maxY := 0 } =
      max ((1:ℚ) - 0) ((0:ℚ) - 0) * SCALE :=
  c9_amended.2.2 { minX := 0, maxX := 1, minY := 0, maxY := 0 }
    (by norm_num [SCALE, max_def])

/-- Helper: the extrusion emits two vertices per polygon point. -/
theorem extrudedPositions_length (pts : List Point2D) :
    ∀ (ps hh ox oz : ℚ), (extrudedPositions pts ps hh ox oz).length = 2 * pts.length := by
  induction pts with
  | nil => intro ps hh ox oz; rfl
  | cons p rest ih =>
      intro ps hh ox oz
      simp [extrudedPositions, ih]
      omega

/-- Helper: the side wall loop emits two triangles per polygon edge. -/
theorem sideIndices_length (n : ℕ) : (sideIndices n).length = 2 * n := by
  have haux : ∀ l : List ℕ,
      (l.flatMap (fun i =>
        let next := (i + 1) % n
        [(i * 2, next * 2, i * 2 + 1), (next * 2, next * 2 + 1, i * 2 + 1)])).length =
        2 * l.length := by
    intro l
    induction l with
    | nil => rfl
    | cons a as ih => simp [List.flatMap_cons, ih]; omega
  simpa [sideIndices, List.length_range] using haux (List.range n)

/-- Helper: total triangle count of the extruded mesh. -/
theorem extrudedIndices_length (n : ℕ) (hn : 3 ≤ n) :
    (extrudedIndices n).length = 4 * n - 4 := by
  simp [extrudedIndices, bottomCapIndices, topCapIndices, sideIndices_length,
    List.length_append, List.length_map, List.length_range]
  omega

/-- Helper: every side triangle references only vertices below 2n. -/
theorem mem_sideIndices_bound (n : ℕ) (hn : 0 < n) (t : ℕ × ℕ × ℕ)
    (ht : t ∈ sideIndices n) :
    t.1 < 2 * n ∧ t.2.1 < 2 * n ∧ t.2.2 < 2 * n := by
  simp only [sideIndices, List.mem_flatMap, List.mem_range] at ht
  obtain ⟨i, hi, hmem⟩ := ht
  have hnext : (i + 1) % n < n := Nat.mod_lt _ hn
  simp only [List.mem_cons, List.not_mem_nil, or_false] at hmem
  rcases hmem with rfl | rfl <;> simp <;> omega

/-- C10: for every polygon with n at least 3 points, the extrusion builder
emits exactly 2n vertices, exactly 4n minus 4 triangles, and every
triangle index is below 2n, so no triangle references a vertex outside the
positions buffer. -/
theorem c10_buffers (zone : Zone) (floor : Floor) (H ox oz : ℚ)
    (hn : 3 ≤ zone.polygon2D.length) :
    (createExtrudedZone zone floor H ox oz).positions.length =
      2 * zone.polygon2D.length ∧
    (createExtrudedZone zone floor H ox oz).indices.length =
      4 * zone.polygon2D.length - 4 ∧
    (∀ t ∈ (createExtrudedZone zone floor H ox oz).indices,
      t.1 < 2 * zone.polygon2D.length ∧
      t.2.1 < 2 * zone.polygon2D.length ∧
      t.2.2 < 2 * zone.polygon2D.length) := by
  refine ⟨?_, ?_, ?_⟩
  · simp [createExtrudedZone, extrudedPositions_length]
  · simp [createExtrudedZone, extrudedIndices_length _ hn]
  · intro t ht
    simp only [createExtrudedZone, extrudedIndices, List.mem_append] at ht
    rcases ht with (hb | htop) | hside
    · simp only [bottomCapIndices, List.mem_map, List.mem_range] at hb
      obtain ⟨j, hj, rfl⟩ := hb
      dsimp only
      omega
    · simp only [topCapIndices, List.mem_map, List.mem_range] at htop
      obtain ⟨j, hj, rfl⟩ := htop
      dsimp only
      omega
    · exact mem_sideIndices_bound _ (by omega) t hside

/-- C10 witness: the vertex count at the concrete unit rectangle. -/
theorem c10_witness :
    (createExtrudedZone (rectZone 1 1) defaultFloorRec 3 0 0).positions.length =
      2 * (rectZone 1 1).polygon2D.length :=
  (c10_buffers (rectZone 1 1) defaultFloorRec 3 0 0 (by simp [rectZone])).1

/-- Helper: the explicit vertex list of the extruded unit-pattern rectangle
for a nonzero plan scale. -/
theorem rect_positions (w h E H s ox oz : ℚ) (hs : s ≠ 0) :
    (createExtrudedZone (rectZone w h) (rectFloor E H s) H ox oz).positions =
      [ { x := 0 * s * SCALE + ox, y := -(H/2), z := 0 * s * SCALE + oz }
      , { x := 0 * s * SCALE + ox, y := H/2, z := 0 * s * SCALE + oz }
      , { x := w * s * SCALE + ox, y := -(H/2), z := 0 * s * SCALE + oz }
      , { x := w * s * SCALE + ox, y := H/2, z := 0 * s * SCALE + oz }
      , { x := w * s * SCALE + ox, y := -(H/2), z := h * s * SCALE + oz }
      , { x := w * s * SCALE + ox, y := H/2, z := h * s * SCALE + oz }
      , { x := 0 * s * SCALE + ox, y := -(H/2), z := h * s * SCALE + oz }
      , { x := 0 * s * SCALE + ox, y := H/2, z := h * s * SCALE + oz } ] := by
  simp [createExtrudedZone, rectZone, rectFloor, extrudedPositions, jsOrOpt, hs]

/-- C3: a rectangle [(0,0),(w,0),(w,h),(0,h)] with positive w, h, extruded
with height H at elevation E and positive plan scale, produces a mesh whose
world-space vertex heights are exactly E and E + H, whose horizontal
coordinates are exactly the images of 0, w (and 0, h) under the
scale-and-offset transform with both extremes attained and ordered, and
whose triangle list is the closed prism triangulation in which every edge
lies in exactly two triangles. -/
theorem c3_rect_prism (w h E H s ox oz : ℚ) (hw : 0 < w) (hh : 0 < h) (hs : 0 < s) :
    (∀ v ∈ (createExtrudedZone (rectZone w h) (rectFloor E H s) H ox oz).positions,
      worldY (createExtrudedZone (rectZone w h) (rectFloor E H s) H ox oz) v = E ∨
      worldY (createExtrudedZone (rectZone w h) (rectFloor E H s) H ox oz) v = E + H) ∧
    (∃ v ∈ (createExtrudedZone (rectZone w h) (rectFloor E H s) H ox oz).positions,
      worldY (createExtrudedZone (rectZone w h) (rectFloor E H s) H ox oz) v = E) ∧
    (∃ v ∈ (createExtrudedZone (rectZone w h) (rectFloor E H s) H ox oz).positions,
      worldY (createExtrudedZone (rectZone w h) (rectFloor E H s) H ox oz) v = E + H) ∧
    (∀ v ∈ (createExtrudedZone (rectZone w h) (rectFloor E H s) H ox oz).positions,
      (v.x = planToWorld 0 s ox ∨ v.x = planToWorld w s ox) ∧
      (v.z = planToWorld 0 s oz ∨ v.z = planToWorld h s oz)) ∧
    (∃ v ∈ (createExtrudedZone (rectZone w h) (rectFloor E H s) H ox oz).positions,
      v.x = planToWorld 0 s ox ∧ v.z = planToWorld 0 s oz) ∧
    (∃ v ∈ (createExtrudedZone (rectZone w h) (rectFloor E H s) H ox oz).positions,
      v.x = planToWorld w s ox ∧ v.z = planToWorld h s oz) ∧
    planToWorld 0 s ox < planToWorld w s ox ∧
    planToWorld 0 s oz < planToWorld h s oz ∧
    (createExtrudedZone (rectZone w h) (rectFloor E H s) H ox oz).indices =
      extrudedIndices 4 ∧
    IsClosedMesh ((createExtrudedZone (rectZone w h) (rectFloor E H s) H ox oz).indices) := by
  have hpos := rect_positions w h E H s ox oz (ne_of_gt hs)
  have hpy : (createExtrudedZone (rectZone w h) (rectFloor E H s) H ox oz).posY =
      E + H / 2 := rfl
  refine ⟨?_, ?_, ?_, ?_, ?_, ?_, ?_, ?_, rfl, ?_⟩
  · intro v hv
    rw [hpos] at hv
    simp only [List.mem_cons, List.not_mem_nil, or_false] at hv
    rcases hv with rfl | rfl | rfl | rfl | rfl | rfl | rfl | rfl <;>
      simp only [worldY, hpy] <;> [left; right; left; right; left; right; left; right] <;>
      ring
  · refine ⟨{ x := 0 * s * SCALE + ox, y := -(H/2), z := 0 * s * SCALE + oz }, ?_, ?_⟩
    · rw [hpos]; simp
    · simp only [worldY, hpy]; ring
  · refine ⟨{ x := 0 * s * SCALE + ox, y := H/2, z := 0 * s * SCALE + oz }, ?_, ?_⟩
    · rw [hpos]; simp
    · simp only [worldY, hpy]; ring
  · intro v hv
    rw [hpos] at hv
    simp only [List.mem_cons, List.not_mem_nil, or_false] at hv
    rcases hv with rfl | rfl | rfl | rfl | rfl | rfl | rfl | rfl <;>
      simp [planToWorld]
  · refine ⟨{ x := 0 * s * SCALE + ox, y := -(H/2), z := 0 * s * SCALE + oz }, ?_, ?_, ?_⟩
    · rw [hpos]; simp
    · simp only [planToWorld]
    · simp only [planToWorld]
  · refine ⟨{ x := w * s * SCALE + ox, y := -(H/2), z := h * s * SCALE + oz }, ?_, ?_, ?_⟩
    · rw [hpos]; simp
    · simp only [planToWorld]
    · simp only [planToWorld]
  · simp only [planToWorld]
    have hx : 0 < w * s * SCALE := by
      have hws := mul_pos hw hs
      have hS : (0:ℚ) < SCALE := by norm_num [SCALE]
      exact mul_pos hws hS
    linarith
  · simp only [planToWorld]
    have hx : 0 < h * s * SCALE := by
      have hhs := mul_pos hh hs
      have hS : (0:ℚ) < SCALE := by norm_num [SCALE]
      exact mul_pos hhs hS
    linarith
  · show IsClosedMesh (extrudedIndices 4)
    decide

/-- C3 witness: the ordered horizontal extent at the unit rectangle with
unit plan scale. -/
theorem c3_witness :
    planToWorld 0 1 0 < planToWorld 1 1 0 :=
  (c3_rect_prism 1 1 0 3 1 0 0 (by norm_num) (by norm_num) (by norm_num)).2.2.2.2.2.2.1

/-- Helper: the visibility pass preserves the node count. -/
theorem applyVisAux_length (l : List FloorNode) :
    ∀ s i, (applyVisAux s i l).length = l.length := by
  induction l with
  | nil => intro s i; rfl
  | cons nd rest ih => intro s i; simp [applyVisAux, ih]

/-- Helper: the visibility pass at index j applies the per-floor update at
absolute position i0 + j. -/
theorem applyVisAux_getD (l : List FloorNode) :
    ∀ s i0 j, j < l.length →
      (applyVisAux s i0 l).getD j defaultFloorNode =
        updateFloorNode s (i0 + j) (l.getD j defaultFloorNode) := by
  induction l with
  | nil => intro s i0 j hj; simp at hj
  | cons nd rest ih =>
      intro s i0 j hj
      cases j with
      | zero => simp [applyVisAux]
      | succ k =>
          have hk : k < rest.length := by simpa using Nat.lt_of_succ_lt_succ hj
          have heq : i0 + (k + 1) = (i0 + 1) + k := by omega
          simp only [applyVisAux, List.getD_cons_succ, heq]
          exact ih s (i0 + 1) k hk

/-- Helper: the lower-floor mesh update does not touch geometry. -/
theorem updateMeshLower_positions (m : MeshState) :
    (updateMeshLower m).positions = m.positions := rfl

/-- Helper: the selected-floor mesh update does not touch geometry. -/
theorem updateMeshSelected_positions (m : MeshState) :
    (updateMeshSelected m).positions = m.positions := by
  unfold updateMeshSelected
  split_ifs <;> rfl

/-- Helper: the per-floor visibility update does not touch geometry. -/
theorem updateFloorNode_positions (s i : ℕ) (node : FloorNode) :
    (updateFloorNode s i node).meshes.map MeshState.positions =
      node.meshes.map MeshState.positions := by
  unfold updateFloorNode
  split_ifs <;> simp [List.map_map, Function.comp_def,
    updateMeshLower_positions, updateMeshSelected_positions]

/-- C7: with the selected identifier resolving to index s, the visibility
pass enables every floor below s with all mesh alphas 1, keeps floor s
enabled with extruded-wall alpha 0.25 (inside the 0.1 to 0.25 range) and
slab alpha 1, disables the transform node of every floor above s, leaves
everything unchanged when the identifier matches no floor or is empty, and
rebuilds no geometry anywhere. -/
theorem c7_visibility (selectedId : String) (nodes : List FloorNode) (s : ℕ)
    (hlen : 2 ≤ nodes.length) (hid : selectedId ≠ "")
    (hfind : findFloorIdx selectedId nodes = some s) :
    (applyFloorVisibility selectedId nodes).length = nodes.length ∧
    (∀ i, i < s → i < nodes.length →
      ((applyFloorVisibility selectedId nodes).getD i defaultFloorNode).rootEnabled = true ∧
      ∀ m ∈ ((applyFloorVisibility selectedId nodes).getD i defaultFloorNode).meshes,
        m.enabled = true ∧ m.alpha = 1) ∧
    (s < nodes.length →
      ((applyFloorVisibility selectedId nodes).getD s defaultFloorNode).rootEnabled = true ∧
      ∀ m ∈ ((applyFloorVisibility selectedId nodes).getD s defaultFloorNode).meshes,
        (m.name.startsWith "zone_extruded_" = true →
          m.enabled = true ∧ m.alpha = 1/4 ∧ 1/10 ≤ m.alpha ∧ m.alpha ≤ 1/4) ∧
        (m.name.startsWith "zone_extruded_" = false →
          m.name.startsWith "zone_floor_" = true →
          m.enabled = true ∧ m.alpha = 1)) ∧
    (∀ i, s < i → i < nodes.length →
      ((applyFloorVisibility selectedId nodes).getD i defaultFloorNode).rootEnabled = false) ∧
    (∀ i, ((applyFloorVisibility selectedId nodes).getD i defaultFloorNode).meshes.map
        MeshState.positions =
      (nodes.getD i defaultFloorNode).meshes.map MeshState.positions) ∧
    (∀ sel2 : String, findFloorIdx sel2 nodes = none →
      applyFloorVisibility sel2 nodes = nodes) ∧
    applyFloorVisibility "" nodes = nodes := by
  have hvis : applyFloorVisibility selectedId nodes = applyVisAux s 0 nodes := by
    simp [applyFloorVisibility, hid, hfind]
  refine ⟨?_, ?_, ?_, ?_, ?_, ?_, ?_⟩
  · rw [hvis]; exact applyVisAux_length nodes s 0
  · intro i his hilen
    rw [hvis, applyVisAux_getD nodes s 0 i hilen]
    have hupd : updateFloorNode s (0 + i) (nodes.getD i defaultFloorNode) =
        { nodes.getD i defaultFloorNode with
            rootEnabled := true,
            meshes := (nodes.getD i defaultFloorNode).meshes.map updateMeshLower } := by
      unfold updateFloorNode
      rw [if_pos (by omega : 0 + i < s)]
    rw [hupd]
    refine ⟨rfl, ?_⟩
    intro m hm
    simp only [List.mem_map] at hm
    obtain ⟨m0, hm0, rfl⟩ := hm
    exact ⟨rfl, rfl⟩
  · intro hslen
    rw [hvis, applyVisAux_getD nodes s 0 s hslen]
    have hupd : updateFloorNode s (0 + s) (nodes.getD s defaultFloorNode) =
        { nodes.getD s defaultFloorNode with
            rootEnabled := true,
            meshes := (nodes.getD s defaultFloorNode).meshes.map updateMeshSelected } := by
      unfold updateFloorNode
      rw [if_neg (by omega : ¬ 0 + s < s), if_pos (by omega : 0 + s = s)]
    rw [hupd]
    refine ⟨rfl, ?_⟩
    intro m hm
    simp only [List.mem_map] at hm
    obtain ⟨m0, hm0, rfl⟩ := hm
    have hname : (updateMeshSelected m0).name = m0.name := by
      unfold updateMeshSelected; split_ifs <;> rfl
    constructor
    · intro hstarts
      rw [hname] at hstarts
      unfold updateMeshSelected
      rw [if_pos hstarts]
      refine ⟨rfl, rfl, by norm_num, by norm_num⟩
    · intro hnotex hfloor
      rw [hname] at hnotex hfloor
      unfold updateMeshSelected
      rw [if_neg (by simp [hnotex]), if_pos hfloor]
      exact ⟨rfl, rfl⟩
  · intro i hsi hilen
    rw [hvis, applyVisAux_getD nodes s 0 i hilen]
    unfold updateFloorNode
    rw [if_neg (by omega : ¬ 0 + i < s), if_neg (by omega : ¬ 0 + i = s)]
  · intro i
    by_cases hilen : i < nodes.length
    · rw [hvis, applyVisAux_getD nodes s 0 i hilen]
      exact updateFloorNode_positions s (0 + i) _
    · have h1 : (applyFloorVisibility selectedId nodes).getD i defaultFloorNode =
          defaultFloorNode := by
        apply List.getD_eq_default
        rw [hvis, applyVisAux_length]
        omega
      have h2 : nodes.getD i defaultFloorNode = defaultFloorNode := by
        apply List.getD_eq_default
        omega
      rw [h1, h2]
  · intro sel2 hnone
    by_cases hsel : sel2 = ""
    · simp [applyFloorVisibility, hsel]
    · simp [applyFloorVisibility, hsel, hnone]
  · simp [applyFloorVisibility]

/-- C7 witness: after selecting the second floor of the concrete two-floor
model, the first floor is enabled with all mesh alphas 1. -/
theorem c7_witness :
    ((applyFloorVisibility "f1" wNodes).getD 0 defaultFloorNode).rootEnabled = true ∧
    ∀ m ∈ ((applyFloorVisibility "f1" wNodes).getD 0 defaultFloorNode).meshes,
      m.enabled = true ∧ m.alpha = 1 :=
  (c7_visibility "f1" wNodes 1 (by simp [wNodes]) (by simp)
    (by simp [findFloorIdx, wNodes, List.findIdx?])).2.1 0 (by omega) (by simp [wNodes])

end Bat3D
